import Mathlib

/-!
# Shallow embedding of the eclis bank bot ledger core

This file embeds, in Lean 4, the ledger / transfer / payroll / admin core of
the repository (the `app/` iteration built on an append-only `transactions`
table, and the `app ` iteration built on a mutable `balance` column), and
proves or refutes the frozen claims about it.

Modelling conventions:
* SQLite rows become Lean structures; a table becomes a `List` of rows kept in
  insertion order (an `INSERT` is an append at the end).
* Python `int` becomes `Int`; identifiers (`tg_user_id`, account ids) are
  non-negative in the source's domain (Telegram ids, AUTOINCREMENT keys) and
  are modelled as `Nat`.
* Wall-clock columns (`ts_utc`, `created_at`) are irrelevant to every claim and
  are omitted from the row structures.
* `receipt_no` is produced in the source by `generate_receipt` as a unique
  numeric string (millisecond timestamp); it is modelled as a counter
  `nextReceipt` rendered with `toString`.
* A Python function that raises `ValueError`/`PermissionError` becomes a
  function into `Except`; the distinct `raise` sites become distinct error
  constructors.
* Python's `str.strip()` becomes `pyStrip` below, which drops whitespace from
  both ends of the character list.
-/

namespace EclisBank

/-- Python's `str.strip()`: drop whitespace characters from both ends.
Defined by structural recursion over the character list so that it evaluates
inside the kernel (core's `String.trim` is equivalent but is defined by
well-founded recursion on byte positions and does not reduce). -/
def pyStrip (s : String) : String :=
  ⟨((s.data.dropWhile Char.isWhitespace).reverse.dropWhile Char.isWhitespace).reverse⟩

/-- A row of the `transactions` ledger table (`app/db.py`, `app/banking.py`
`TxRow`). `ts_utc` is omitted (wall clock). -/
structure TxRow where
  receipt_no : String
  from_account_id : Option Nat
  to_account_id : Option Nat
  amount : Int
  status : String
  description : String
  created_by_tg_id : Nat
  forced : Bool
  deriving Repr, DecidableEq

/-- A row of the `accounts` table (`app/db.py` `Account`). `created_at`
omitted. -/
structure Account where
  id : Nat
  owner_tg_id : Nat
  kind : String
  label : String
  is_active : Bool
  deriving Repr, DecidableEq

/-- The status filter `status IN ('SUCCESS', 'FORCED')` used by the balance
queries in `app/banking.py`. -/
def statusCounts (s : String) : Bool :=
  s = "SUCCESS" || s = "FORCED"

/-- The net contribution of one ledger row to one account's balance:
`CASE WHEN to_account_id = ? THEN amount ELSE 0 END` minus
`CASE WHEN from_account_id = ? THEN amount ELSE 0 END`. -/
def txSigned (acc : Nat) (t : TxRow) : Int :=
  (if t.to_account_id = some acc then t.amount else 0)
    - (if t.from_account_id = some acc then t.amount else 0)

/-- Source `app/banking.py` `get_balance`: the ledger-based balance, the sum of
`txSigned` over the rows with status `SUCCESS` or `FORCED`.  (The SQL also
restricts to rows with `from_account_id = ? OR to_account_id = ?`, but a row
touching neither side contributes `0 - 0` to the sum, so the restriction does
not change the value.)  Note the source performs no account-existence check:
the function is total in the account id. -/
def get_balance (txs : List TxRow) (account_id : Nat) : Int :=
  ((txs.filter (fun t => statusCounts t.status)).map (txSigned account_id)).sum

/-- Sum of amounts credited to `acc` by `SUCCESS`/`FORCED` rows. -/
def credits (txs : List TxRow) (acc : Nat) : Int :=
  ((txs.filter (fun t => statusCounts t.status && t.to_account_id = some acc)).map
    (fun t => t.amount)).sum

/-- Sum of amounts debited from `acc` by `SUCCESS`/`FORCED` rows. -/
def debits (txs : List TxRow) (acc : Nat) : Int :=
  ((txs.filter (fun t => statusCounts t.status && t.from_account_id = some acc)).map
    (fun t => t.amount)).sum

theorem get_balance_eq_credits_sub_debits (txs : List TxRow) (acc : Nat) :
    get_balance txs acc = credits txs acc - debits txs acc := by
  induction txs with
  | nil => simp [get_balance, credits, debits]
  | cons t ts ih =>
    simp only [get_balance, credits, debits, List.filter_cons] at *
    by_cases h1 : statusCounts t.status
    · by_cases h2 : t.to_account_id = some acc
      · by_cases h3 : t.from_account_id = some acc
        · simp [h1, h2, h3, txSigned] at *
          omega
        · simp [h1, h2, h3, txSigned] at *
          omega
      · by_cases h3 : t.from_account_id = some acc
        · simp [h1, h2, h3, txSigned] at *
          omega
        · simp [h1, h2, h3, txSigned] at *
          omega
    · simp [h1] at *
      omega

theorem get_balance_append (txs rows : List TxRow) (acc : Nat) :
    get_balance (txs ++ rows) acc = get_balance txs acc + get_balance rows acc := by
  simp [get_balance]

theorem get_balance_singleton (row : TxRow) (acc : Nat) :
    get_balance [row] acc = if statusCounts row.status then txSigned acc row else 0 := by
  by_cases h : statusCounts row.status <;> simp [get_balance, h]

example : get_balance [⟨"1", none, some 3, 10, "FORCED", "seed", 0, true⟩] 3 = 10 := by decide

/-! ## The banking-iteration transfer (`app/banking.py` `transfer`) -/

/-- State of the banking iteration's database: the `accounts` table, the
`transactions` ledger, and the receipt-number source. -/
structure BankState where
  accounts : List Account
  transactions : List TxRow
  nextReceipt : Nat
  deriving Repr, DecidableEq

/-- The distinct `raise ValueError(...)` sites of `app/banking.py`
`transfer`. -/
inductive TransferError where
  | invalidAmount        -- "amount must be > 0"
  | emptyDescription     -- "description is required"
  | senderNotFound       -- "sender account not found"
  | receiverNotFound     -- "receiver account not found"
  | insufficientFunds    -- "insufficient funds"
  deriving Repr, DecidableEq

/-- The lookup `SELECT ... FROM accounts WHERE id = ? AND is_active = 1 LIMIT 1`. -/
def findActiveAccount (accs : List Account) (i : Nat) : Option Account :=
  accs.find? (fun a => a.id = i && a.is_active)

/-- Source `app/banking.py` `transfer`: validates amount and description, requires
both accounts to exist and be active, re-derives the sender's ledger balance
unless `forced`, and appends a single `SUCCESS`/`FORCED` row.  Returns the
receipt number and the updated state.  Note the source has no
same-account (`from ≠ to`) check. -/
def transfer (st : BankState) (from_account_id to_account_id : Nat) (amount : Int)
    (description : String) (created_by_tg_id : Nat) (forced : Bool) :
    Except TransferError (String × BankState) :=
  if amount ≤ 0 then .error .invalidAmount
  -- the source reassigns `description = description.strip()` and uses the
  -- stripped string from then on; we write `pyStrip description` at each use
  else if pyStrip description = "" then .error .emptyDescription
  else
    match findActiveAccount st.accounts from_account_id with
    | none => .error .senderNotFound
    | some _ =>
      match findActiveAccount st.accounts to_account_id with
      | none => .error .receiverNotFound
      | some _ =>
        if !forced && get_balance st.transactions from_account_id < amount then
          .error .insufficientFunds
        else
          let status := if forced then "FORCED" else "SUCCESS"
          let receipt_no := toString st.nextReceipt
          let row : TxRow :=
            { receipt_no := receipt_no
              from_account_id := some from_account_id
              to_account_id := some to_account_id
              amount := amount
              status := status
              description := pyStrip description
              created_by_tg_id := created_by_tg_id
              forced := forced }
          .ok (receipt_no,
            { st with
              transactions := st.transactions ++ [row]
              nextReceipt := st.nextReceipt + 1 })

/-- One transfer request, as the caller of `transfer` would issue it. -/
structure TransferReq where
  from_account_id : Nat
  to_account_id : Nat
  amount : Int
  description : String
  created_by_tg_id : Nat
  forced : Bool
  deriving Repr, DecidableEq

/-- Issue one transfer request against the state; a failed call (a raised
`ValueError`) leaves the database unchanged, since the source rolls the
transaction back before raising. -/
def applyTransfer (st : BankState) (r : TransferReq) : BankState :=
  match transfer st r.from_account_id r.to_account_id r.amount r.description
      r.created_by_tg_id r.forced with
  | .ok (_, st') => st'
  | .error _ => st

/-- Issue a sequence of transfer requests in order. -/
def runTransfers (st : BankState) (rs : List TransferReq) : BankState :=
  rs.foldl applyTransfer st

/-- Inversion of a successful `transfer`: the amount was positive, the
balance check passed when not forced, and exactly one row was appended. -/
theorem transfer_ok_inv {st : BankState} {f t : Nat} {a : Int} {d : String}
    {u : Nat} {fo : Bool} {rn : String} {st' : BankState}
    (h : transfer st f t a d u fo = .ok (rn, st')) :
    0 < a ∧ (fo = false → a ≤ get_balance st.transactions f) ∧
      rn = toString st.nextReceipt ∧
      st'.accounts = st.accounts ∧
      st'.transactions = st.transactions ++
        [⟨toString st.nextReceipt, some f, some t, a,
          if fo then "FORCED" else "SUCCESS", pyStrip d, u, fo⟩] ∧
      st'.nextReceipt = st.nextReceipt + 1 := by
  unfold transfer at h
  split at h
  · cases h
  · simp only at h
    split at h
    · cases h
    · split at h
      · cases h
      · split at h
        · cases h
        · split at h
          · cases h
          · rename_i hamt _ _ _ hguard
            simp only [Except.ok.injEq, Prod.mk.injEq] at h
            obtain ⟨hrn, hst⟩ := h
            subst hst
            refine ⟨by omega, ?_, hrn.symm, rfl, rfl, rfl⟩
            intro hfo
            subst hfo
            simp only [Bool.not_false, Bool.true_and, decide_eq_true_eq] at hguard
            omega

/-- A single non-forced transfer request preserves non-negativity of every
computed balance. -/
theorem applyTransfer_nonneg (st : BankState) (r : TransferReq)
    (hr : r.forced = false)
    (h : ∀ acc, 0 ≤ get_balance st.transactions acc) (acc : Nat) :
    0 ≤ get_balance (applyTransfer st r).transactions acc := by
  unfold applyTransfer
  cases htr : transfer st r.from_account_id r.to_account_id r.amount
      r.description r.created_by_tg_id r.forced with
  | error e => exact h acc
  | ok p =>
    obtain ⟨rn, st'⟩ := p
    obtain ⟨hpos, hbal, -, -, htxs, -⟩ := transfer_ok_inv htr
    have hb := hbal hr
    have hacc := h acc
    simp only [htxs, get_balance_append, get_balance_singleton, hr,
      statusCounts, txSigned]
    simp only [if_neg (by simp : ¬((false : Bool) = true)), Option.some.injEq]
    by_cases h1 : r.to_account_id = acc
    · by_cases h2 : r.from_account_id = acc
      · simp [h1, h2]
        omega
      · simp [h1, h2]
        omega
    · by_cases h2 : r.from_account_id = acc
      · subst h2
        simp [h1]
        omega
      · simp [h1, h2]
        omega

example :
    transfer ⟨[⟨1, 10, "personal", "A", true⟩, ⟨2, 11, "personal", "B", true⟩],
        [⟨"0", none, some 1, 100, "FORCED", "seed", 0, true⟩], 1⟩
      1 2 30 "rent" 10 false =
    .ok ("1",
      ⟨[⟨1, 10, "personal", "A", true⟩, ⟨2, 11, "personal", "B", true⟩],
        [⟨"0", none, some 1, 100, "FORCED", "seed", 0, true⟩,
         ⟨"1", some 1, some 2, 30, "SUCCESS", "rent", 10, false⟩], 2⟩) := by
  rfl

/-! ## The services iteration (`app /services.py`, mutable balance column)

The repository's other iteration keeps a mutable `balance` column on each
account and records transfers in a `ledger` table.  Its `uuid4` transaction
id is modelled as a counter `nextTxid`. -/

/-- An `accounts` row of the services iteration (`app /models.py`
`Account`). -/
structure SAccount where
  id : String
  acc_type : String
  owner_tg_id : Option Nat
  name : String
  balance : Int
  deriving Repr, DecidableEq

/-- A `ledger` row of the services iteration; `meta`/`created_at` omitted. -/
structure SLedgerRow where
  txid : Nat
  actor_tg_id : Nat
  from_acc : String
  to_acc : String
  amount : Int
  tx_type : String
  status : String
  reason : String
  deriving Repr, DecidableEq

/-- Database state of the services iteration. -/
structure SState where
  accounts : List SAccount
  ledger : List SLedgerRow
  nextTxid : Nat
  deriving Repr, DecidableEq

/-- The distinct `raise ValueError(...)` sites of `app /services.py`
`atomic_transfer`. -/
inductive SError where
  | invalidAmount      -- "Amount must be > 0"
  | sameAccount        -- "from_acc and to_acc must be different"
  | invalidAccounts    -- "Invalid account(s)"
  | insufficientFunds  -- "Insufficient funds"
  deriving Repr, DecidableEq

/-- The lookup `select(Account).where(Account.id == acc_id)`. -/
def sFindAccount (accs : List SAccount) (i : String) : Option SAccount :=
  accs.find? (fun a => a.id = i)

/-- Source `app /services.py` `get_balance`: look the account up, raise
`"Account not found"` when absent, else return the stored balance. -/
def s_get_balance (st : SState) (acc_id : String) : Except String Int :=
  match sFindAccount st.accounts acc_id with
  | none => .error "Account not found"
  | some a => .ok a.balance

/-- Add `delta` to the stored balance of account `i`. -/
def updateBalance (accs : List SAccount) (i : String) (delta : Int) :
    List SAccount :=
  accs.map (fun a => if a.id = i then { a with balance := a.balance + delta } else a)

/-- Source `app /services.py` `atomic_transfer`: validates the amount, requires
`from_acc ≠ to_acc`, requires both accounts to exist, checks the stored
balance, then debits, credits and appends one ledger row with status
`"ok"`. -/
def atomic_transfer (st : SState) (actor_tg_id : Nat) (from_acc to_acc : String)
    (amount : Int) (tx_type reason : String) : Except SError (Nat × SState) :=
  if amount ≤ 0 then .error .invalidAmount
  else if from_acc = to_acc then .error .sameAccount
  else
    match sFindAccount st.accounts from_acc, sFindAccount st.accounts to_acc with
    | some from_row, some _ =>
      if from_row.balance < amount then .error .insufficientFunds
      else
        .ok (st.nextTxid,
          { accounts :=
              updateBalance (updateBalance st.accounts from_acc (-amount))
                to_acc amount
            ledger := st.ledger ++
              [⟨st.nextTxid, actor_tg_id, from_acc, to_acc, amount, tx_type,
                "ok", reason⟩]
            nextTxid := st.nextTxid + 1 })
    | _, _ => .error .invalidAccounts

/-! ## Claim C1 -/

/-- Ledger fixture for the C1 witness: a seed credit and one transfer. -/
def txsC1 : List TxRow :=
  [⟨"0", none, some 1, 100, "FORCED", "seed", 0, true⟩,
   ⟨"1", some 1, some 2, 30, "SUCCESS", "rent", 10, false⟩]

/-- A `FAILED` row for the C1 witness. -/
def rowC1 : TxRow := ⟨"2", some 1, some 2, 500, "FAILED", "fail", 10, false⟩

/-- C1: for every account and ledger, the computed balance is the sum of
`SUCCESS`/`FORCED` amounts into the account minus the sum of
`SUCCESS`/`FORCED` amounts out of it, and appending a `FAILED` or `PENDING`
row changes no account's balance. -/
theorem C1_balance_is_pure_fold (txs : List TxRow) (acc : Nat) (row : TxRow)
    (h : row.status = "FAILED" ∨ row.status = "PENDING") :
    get_balance txs acc = credits txs acc - debits txs acc ∧
    get_balance (txs ++ [row]) acc = get_balance txs acc := by
  refine ⟨get_balance_eq_credits_sub_debits txs acc, ?_⟩
  have hs : statusCounts row.status = false := by
    rcases h with h | h <;> simp [statusCounts, h]
  rw [get_balance_append, get_balance_singleton, hs]
  simp

/-- C1 witness at a concrete ledger, account 1, and a concrete FAILED row. -/
theorem C1_balance_is_pure_fold_witness :
    (rowC1.status = "FAILED" ∨ rowC1.status = "PENDING") ∧
    (get_balance txsC1 1 = credits txsC1 1 - debits txsC1 1 ∧
     get_balance (txsC1 ++ [rowC1]) 1 = get_balance txsC1 1) :=
  ⟨Or.inl rfl, C1_balance_is_pure_fold txsC1 1 rowC1 (Or.inl rfl)⟩

/-! ## Claim C2 -/

/-- Bank-state fixture for the C2 witness: accounts 1 and 2 active, account 1
seeded with a `FORCED` credit of 100. -/
def stC2 : BankState :=
  ⟨[⟨1, 10, "personal", "A", true⟩, ⟨2, 11, "personal", "B", true⟩],
   [⟨"0", none, some 1, 100, "FORCED", "seed", 0, true⟩], 1⟩

/-- Requests for the C2 witness: one non-forced transfer. -/
def rsC2 : List TransferReq := [⟨1, 2, 30, "rent", 10, false⟩]

/-- C2: from any state with all computed balances non-negative, any sequence
of non-forced transfer calls keeps every computed balance non-negative. -/
theorem C2_nonforced_preserves_nonneg (st : BankState) (rs : List TransferReq)
    (hrs : ∀ r ∈ rs, r.forced = false)
    (h : ∀ acc, 0 ≤ get_balance st.transactions acc) :
    ∀ acc, 0 ≤ get_balance (runTransfers st rs).transactions acc := by
  induction rs generalizing st with
  | nil => exact h
  | cons r rs ih =>
    exact ih (applyTransfer st r)
      (fun x hx => hrs x (List.mem_cons_of_mem r hx))
      (applyTransfer_nonneg st r (hrs r (List.mem_cons_self r rs)) h)

/-- C2 witness: the fixture state satisfies the invariant and the balances of
accounts 1 and 2 stay non-negative after the request sequence. -/
theorem C2_nonforced_preserves_nonneg_witness :
    0 ≤ get_balance (runTransfers stC2 rsC2).transactions 1 ∧
    0 ≤ get_balance (runTransfers stC2 rsC2).transactions 2 := by
  have hinv : ∀ acc, 0 ≤ get_balance stC2.transactions acc := by
    intro acc
    by_cases h : (1 : Nat) = acc <;>
      simp [stC2, get_balance, statusCounts, txSigned, h]
  have hrs : ∀ r ∈ rsC2, r.forced = false := by decide
  exact ⟨C2_nonforced_preserves_nonneg stC2 rsC2 hrs hinv 1,
    C2_nonforced_preserves_nonneg stC2 rsC2 hrs hinv 2⟩

/-! ## Claim C3 -/

/-- C3: a non-forced transfer whose sender balance is below the amount (all
other preconditions holding) fails with insufficient funds, and the failed
call leaves every computed balance unchanged. -/
theorem C3_insufficient_funds_rejected (st : BankState) (f t : Nat) (a : Int)
    (d : String) (u : Nat)
    (hf : (findActiveAccount st.accounts f).isSome)
    (ht : (findActiveAccount st.accounts t).isSome)
    (ha : 0 < a) (hd : pyStrip d ≠ "")
    (hbal : get_balance st.transactions f < a) :
    transfer st f t a d u false = .error .insufficientFunds ∧
    ∀ acc, get_balance (applyTransfer st ⟨f, t, a, d, u, false⟩).transactions acc
      = get_balance st.transactions acc := by
  obtain ⟨af, haf⟩ := Option.isSome_iff_exists.mp hf
  obtain ⟨bt, hbt⟩ := Option.isSome_iff_exists.mp ht
  have htr : transfer st f t a d u false = .error .insufficientFunds := by
    unfold transfer
    rw [if_neg (by omega : ¬a ≤ 0), if_neg hd, haf, hbt]
    simp [hbal]
  refine ⟨htr, fun acc => ?_⟩
  unfold applyTransfer
  rw [htr]

/-- Bank-state fixture for C3/C4: accounts 1 and 2 active, empty ledger. -/
def stC3 : BankState :=
  ⟨[⟨1, 10, "personal", "A", true⟩, ⟨2, 11, "personal", "B", true⟩], [], 0⟩

/-- C3 witness: on an empty ledger (balance 0 < 5) a non-forced transfer of 5
fails with insufficient funds and changes no balance. -/
theorem C3_insufficient_funds_rejected_witness :
    transfer stC3 1 2 5 "x" 9 false = .error .insufficientFunds ∧
    get_balance (applyTransfer stC3 ⟨1, 2, 5, "x", 9, false⟩).transactions 1
      = get_balance stC3.transactions 1 :=
  ⟨(C3_insufficient_funds_rejected stC3 1 2 5 "x" 9 (by rfl) (by rfl)
      (by decide) (by decide) (by decide)).1,
   (C3_insufficient_funds_rejected stC3 1 2 5 "x" 9 (by rfl) (by rfl)
      (by decide) (by decide) (by decide)).2 1⟩

/-! ## Claim C4 -/

/-- C4: a forced transfer between existing active accounts, with a positive
amount and a non-blank description, always succeeds — the balance check is
bypassed — and appends exactly one `FORCED` row. -/
theorem C4_forced_transfer_succeeds (st : BankState) (f t : Nat) (a : Int)
    (d : String) (u : Nat)
    (hf : (findActiveAccount st.accounts f).isSome)
    (ht : (findActiveAccount st.accounts t).isSome)
    (ha : 0 < a) (hd : pyStrip d ≠ "") :
    transfer st f t a d u true =
      .ok (toString st.nextReceipt,
        { st with
          transactions := st.transactions ++
            [⟨toString st.nextReceipt, some f, some t, a, "FORCED",
              pyStrip d, u, true⟩]
          nextReceipt := st.nextReceipt + 1 }) := by
  obtain ⟨af, haf⟩ := Option.isSome_iff_exists.mp hf
  obtain ⟨bt, hbt⟩ := Option.isSome_iff_exists.mp ht
  unfold transfer
  rw [if_neg (by omega : ¬a ≤ 0), if_neg hd, haf, hbt]
  simp

/-- C4 witness: on an empty ledger (sender balance 0) a forced transfer of 5
succeeds with a `FORCED` row, leaving the sender's computed balance at −5. -/
theorem C4_forced_transfer_succeeds_witness :
    transfer stC3 1 2 5 "x" 9 true =
      .ok ("0", { stC3 with
        transactions := [⟨"0", some 1, some 2, 5, "FORCED", "x", 9, true⟩]
        nextReceipt := 1 }) ∧
    get_balance [⟨"0", some 1, some 2, 5, "FORCED", "x", 9, true⟩] 1 = -5 :=
  ⟨C4_forced_transfer_succeeds stC3 1 2 5 "x" 9 (by rfl) (by rfl)
      (by decide) (by decide),
   by decide⟩

/-! ## Claim C5 -/

/-- Bank-state fixture for C5: a single active account 7 holding a seeded
balance of 10. -/
def stC5 : BankState :=
  ⟨[⟨7, 3, "personal", "P", true⟩],
   [⟨"0", none, some 7, 10, "FORCED", "seed", 0, true⟩], 1⟩

/-- C5 counterexample: in the banking iteration a self-transfer (from = to)
with sufficient balance succeeds and appends a `SUCCESS` row — `transfer`
performs no same-account check, refuting "a self-transfer never succeeds". -/
theorem C5_counterexample_self_transfer_succeeds :
    transfer stC5 7 7 5 "x" 9 false =
      .ok ("1",
        ⟨[⟨7, 3, "personal", "P", true⟩],
         [⟨"0", none, some 7, 10, "FORCED", "seed", 0, true⟩,
          ⟨"1", some 7, some 7, 5, "SUCCESS", "x", 9, false⟩], 2⟩) := by
  rfl

/-- C5 amended: the services iteration's `atomic_transfer` rejects
`from_acc = to_acc` with the same-account error (appending no ledger row),
but the banking iteration's `transfer` has no such check: a self-transfer
with a sufficient sender balance succeeds (with zero net balance effect). -/
theorem C5_amended_same_account_check (st : SState) (actor : Nat)
    (acc : String) (amount : Int) (tx_type reason : String)
    (h : 0 < amount) :
    atomic_transfer st actor acc acc amount tx_type reason = .error .sameAccount
    ∧ ∀ (bst : BankState) (f : Nat) (a : Int) (d : String) (u : Nat),
        (findActiveAccount bst.accounts f).isSome → 0 < a → pyStrip d ≠ "" →
        a ≤ get_balance bst.transactions f →
        ∃ st', transfer bst f f a d u false = .ok (toString bst.nextReceipt, st')
          ∧ get_balance st'.transactions f = get_balance bst.transactions f := by
  constructor
  · unfold atomic_transfer
    rw [if_neg (by omega : ¬amount ≤ 0), if_pos rfl]
  · intro bst f a d u hf ha hd hb
    obtain ⟨af, haf⟩ := Option.isSome_iff_exists.mp hf
    refine ⟨{ bst with
        transactions := bst.transactions ++
          [⟨toString bst.nextReceipt, some f, some f, a, "SUCCESS",
            pyStrip d, u, false⟩]
        nextReceipt := bst.nextReceipt + 1 }, ?_, ?_⟩
    · unfold transfer
      rw [if_neg (by omega : ¬a ≤ 0), if_neg hd, haf]
      simp [show ¬get_balance bst.transactions f < a by omega]
    · rw [get_balance_append, get_balance_singleton]
      simp [statusCounts, txSigned]

/-- C5 amended witness: concrete same-account rejection in the services
iteration, and a concrete successful self-transfer in the banking one. -/
theorem C5_amended_same_account_check_witness :
    atomic_transfer ⟨[⟨"U-7", "USER", some 7, "p", 10⟩], [], 0⟩ 9
        "U-7" "U-7" 5 "transfer" "" = .error .sameAccount ∧
    ∃ st', transfer stC5 7 7 5 "x" 9 false = .ok ("1", st')
      ∧ get_balance st'.transactions 7 = get_balance stC5.transactions 7 :=
  ⟨(C5_amended_same_account_check ⟨[⟨"U-7", "USER", some 7, "p", 10⟩], [], 0⟩
      9 "U-7" 5 "transfer" "" (by decide)).1,
   (C5_amended_same_account_check ⟨[⟨"U-7", "USER", some 7, "p", 10⟩], [], 0⟩
      9 "U-7" 5 "transfer" "" (by decide)).2 stC5 7 5 "x" 9
      (by rfl) (by decide) (by decide) (by decide)⟩

/-! ## Claim C6 -/

/-- If a row touches the account on neither side it contributes nothing. -/
theorem txSigned_eq_zero {acc : Nat} {t : TxRow}
    (h1 : t.from_account_id ≠ some acc) (h2 : t.to_account_id ≠ some acc) :
    txSigned acc t = 0 := by
  simp [txSigned, h1, h2]

/-- Ledger fixture for C6: rows touching only accounts 1 and 2. -/
def txsC6 : List TxRow :=
  [⟨"0", none, some 1, 100, "FORCED", "seed", 0, true⟩,
   ⟨"1", some 1, some 2, 30, "SUCCESS", "rent", 10, false⟩]

/-- C6 counterexample: the banking iteration's `get_balance` is total — for
account id 42, absent from the fixture's account store, it returns the
integer 0 instead of failing with an account-not-found error, so a caller
cannot distinguish a zero balance from a missing account. -/
theorem C6_counterexample_missing_account_returns_zero :
    ((⟨[⟨1, 10, "personal", "A", true⟩], txsC6, 2⟩ :
        BankState).accounts.find? (fun a => a.id = 42)).isNone = true ∧
    get_balance txsC6 42 = 0 := by
  decide

/-- C6 amended: the banking iteration's `get_balance` never fails — it
returns the ledger sum, which is 0 for any account (existing or not) with no
rows touching it; only the services iteration's `get_balance` fails with
"Account not found" on a missing account. -/
theorem C6_amended_balance_total (txs : List TxRow) (acc : Nat)
    (h : ∀ t ∈ txs, t.from_account_id ≠ some acc ∧ t.to_account_id ≠ some acc)
    (st : SState) (i : String) (hm : sFindAccount st.accounts i = none) :
    get_balance txs acc = 0 ∧ s_get_balance st i = .error "Account not found" := by
  constructor
  · induction txs with
    | nil => simp [get_balance]
    | cons t ts ih =>
      have ht := h t (List.mem_cons_self t ts)
      have hts := ih (fun x hx => h x (List.mem_cons_of_mem t hx))
      by_cases hs : statusCounts t.status <;>
        simp only [get_balance, List.filter_cons, hs, if_pos, if_neg,
          Bool.false_eq_true, ite_false, ite_true, List.map_cons, List.sum_cons,
          txSigned_eq_zero ht.1 ht.2] at hts ⊢ <;>
        simpa [get_balance] using hts
  · unfold s_get_balance
    rw [hm]

/-- C6 amended witness: account 42 / id "U-42" are absent, the banking
balance evaluates to 0 and the services balance to the error. -/
theorem C6_amended_balance_total_witness :
    get_balance txsC6 42 = 0 ∧
    s_get_balance ⟨[⟨"U-7", "USER", some 7, "p", 10⟩], [], 0⟩ "U-42"
      = .error "Account not found" :=
  C6_amended_balance_total txsC6 42 (by decide)
    ⟨[⟨"U-7", "USER", some 7, "p", 10⟩], [], 0⟩ "U-42" (by rfl)

/-! ## The role/access gate (`app/admin.py`) -/

/-- State of the admin module: the `meta` table's `OWNER_TG_ID` entry and the
`admins` table rows `(tg_user_id, is_active)`.  Telegram user ids are
modelled as `Nat`; the source stores the owner id as `str(owner_tg_id)` and
parses it back with `int(v) if v.isdigit() else None`, an identity
round-trip on naturals. -/
structure AdminState where
  owner : Option Nat
  admins : List (Nat × Bool)
  deriving Repr, DecidableEq

/-- Source `app/admin.py` `get_owner_tg_id`. -/
def get_owner_tg_id (s : AdminState) : Option Nat := s.owner

/-- Source `app/admin.py` `ensure_owner_seed`: raises `PermissionError` when an
owner id already exists, else inserts the id. -/
def ensure_owner_seed (s : AdminState) (owner_tg_id : Nat) :
    Except String AdminState :=
  match get_owner_tg_id s with
  | some _ => .error "OWNER already set and locked"
  | none => .ok { s with owner := some owner_tg_id }

/-- Source `app/admin.py` `is_owner`. -/
def is_owner (s : AdminState) (tg_user_id : Nat) : Bool :=
  match get_owner_tg_id s with
  | none => false
  | some o => tg_user_id = o

/-- Source `app/admin.py` `is_admin`: the owner is implicitly admin; otherwise an
active row in the `admins` table is required. -/
def is_admin (s : AdminState) (tg_user_id : Nat) : Bool :=
  is_owner s tg_user_id || s.admins.any (fun p => p.1 = tg_user_id && p.2)

/-! ## The payroll scheduler (`app/payroll.py`) -/

/-- A `business_staff` row. `created_at` omitted. -/
structure Staff where
  id : Nat
  business_account_id : Nat
  staff_name : String
  staff_tg_id : Option Nat
  staff_account_id : Nat
  monthly_salary : Int
  is_active : Bool
  deriving Repr, DecidableEq

/-- Payroll-side database state: the banking state plus the `business_staff`
roster and the `payroll_runs` table, one `(business_account_id, year, month)`
key per row (the table's UNIQUE constraint makes the key the identity of the
row; `created_by_tg_id`/`created_at` omitted). -/
structure PayrollState where
  bank : BankState
  staff : List Staff
  payroll_runs : List (Nat × Nat × Nat)
  deriving Repr, DecidableEq

/-- The failure modes of `run_payroll`: its own three `raise` sites plus a
propagated exception from `transfer` inside the loop. -/
inductive PayrollError where
  | adminOnly
  | badMonth
  | alreadyRun
  | transferFailed (e : TransferError)
  deriving Repr, DecidableEq

/-- The format `f"{month:02d}"` on the validated range `1..12`. -/
def pad2 (n : Nat) : String :=
  if n < 10 then "0" ++ toString n else toString n

/-- The fallback note `f"Salary {year}-{month:02d}"`. -/
def defaultNote (year month : Nat) : String :=
  "Salary " ++ toString year ++ "-" ++ pad2 month

/-- The note `run_payroll` actually uses: the stripped input, or the default
when the stripped input is empty (`note = (note or "").strip()` followed by
`if not note: note = f"Salary {year}-{month:02d}"`). -/
def effectiveNote (year month : Nat) (note : String) : String :=
  if pyStrip note = "" then defaultNote year month else pyStrip note

/-- The transfer loop at the end of `run_payroll`: one non-forced `transfer`
per staff row, sequentially, description `f"{note} | {staff_name}"`.  Each
transfer commits on its own; the loop body has no exception handler, so a
raised transfer error propagates immediately, returning the bank state
reached so far and leaving the rest of the roster unprocessed. -/
def payStaff (admin_tg_id business_account_id : Nat) (note : String) :
    List Staff → BankState →
      Except TransferError (List (Nat × String)) × BankState
  | [], bank => (.ok [], bank)
  | s :: rest, bank =>
    match transfer bank business_account_id s.staff_account_id
        s.monthly_salary (note ++ " | " ++ s.staff_name) admin_tg_id false with
    | .error e => (.error e, bank)
    | .ok (receipt_no, bank') =>
      match payStaff admin_tg_id business_account_id note rest bank' with
      | (.ok results, bank'') => (.ok ((s.id, receipt_no) :: results), bank'')
      | (.error e, bank'') => (.error e, bank'')

/-- Source `app/payroll.py` `run_payroll`: admin gate, month validation, note
defaulting, then — in one immediate transaction — the unique
`(business, year, month)` lock-row insert (failing with "payroll already
executed" when the row exists) and the active-staff snapshot, committed
before the transfer loop runs.  Returns the result together with the
database state after the call (also when the loop raises partway). -/
def run_payroll (adm : AdminState) (st : PayrollState)
    (admin_tg_id business_account_id year month : Nat) (note : String) :
    Except PayrollError (List (Nat × String)) × PayrollState :=
  if !is_admin adm admin_tg_id then (.error .adminOnly, st)
  else if month < 1 ∨ 12 < month then (.error .badMonth, st)
  else
    let note := effectiveNote year month note
    if (business_account_id, year, month) ∈ st.payroll_runs then
      (.error .alreadyRun, st)
    else
      let st1 : PayrollState :=
        { st with payroll_runs :=
            st.payroll_runs ++ [(business_account_id, year, month)] }
      let snapshot := st.staff.filter
        (fun s => s.business_account_id = business_account_id && s.is_active)
      match payStaff admin_tg_id business_account_id note snapshot st1.bank with
      | (.ok results, bank') => (.ok results, { st1 with bank := bank' })
      | (.error e, bank') => (.error (.transferFailed e), { st1 with bank := bank' })

/-! ## Claim C7 -/

/-- C7: for an admin caller and a valid month — a call with a fresh
`(business, year, month)` key leaves the lock row inserted whatever the
transfer loop does; a call with an already-present key fails with the
already-run error and changes nothing (zero transfers); and a key occurring
at most once in the run table still occurs at most once afterwards. -/
theorem C7_payroll_lock (adm : AdminState) (st : PayrollState)
    (a b y m : Nat) (note : String)
    (hadm : is_admin adm a = true) (hm1 : 1 ≤ m) (hm2 : m ≤ 12) :
    ((b, y, m) ∉ st.payroll_runs →
      (run_payroll adm st a b y m note).2.payroll_runs
        = st.payroll_runs ++ [(b, y, m)]) ∧
    ((b, y, m) ∈ st.payroll_runs →
      run_payroll adm st a b y m note = (.error .alreadyRun, st)) ∧
    (∀ k : Nat × Nat × Nat, st.payroll_runs.count k ≤ 1 →
      (run_payroll adm st a b y m note).2.payroll_runs.count k ≤ 1) := by
  unfold run_payroll
  simp only [hadm, Bool.not_true, Bool.false_eq_true, if_false,
    if_neg (by omega : ¬(m < 1 ∨ 12 < m))]
  by_cases hmem : (b, y, m) ∈ st.payroll_runs
  · refine ⟨fun h => absurd hmem h, fun _ => by simp [hmem], fun k hk => ?_⟩
    simp [hmem, hk]
  · refine ⟨fun _ => ?_, fun h => absurd h hmem, fun k hk => ?_⟩
    · simp only [if_neg hmem]
      split
      · simp
      · simp
    · simp only [if_neg hmem]
      have hcount : (st.payroll_runs ++ [(b, y, m)]).count k ≤ 1 := by
        rw [List.count_append]
        by_cases hk2 : k = (b, y, m)
        · subst hk2
          rw [List.count_eq_zero.mpr hmem]
          simp
        · have : ([(b, y, m)] : List (Nat × Nat × Nat)).count k = 0 := by
            rw [List.count_eq_zero]
            simp [hk2]
          omega
      split
      · simpa using hcount
      · simpa using hcount

/-- Admin fixture: user 111 is the seeded owner (hence admin). -/
def admC7 : AdminState := ⟨some 111, []⟩

/-- Payroll fixture for the C7 witness: one business account, no staff, no
runs yet. -/
def stC7 : PayrollState := ⟨⟨[⟨1, 10, "business", "B", true⟩], [], 0⟩, [], []⟩

/-- The same fixture after the period `(1, 2024, 6)` has been run. -/
def stC7' : PayrollState := ⟨⟨[⟨1, 10, "business", "B", true⟩], [], 0⟩, [], [(1, 2024, 6)]⟩

/-- C7 witness: a first run inserts the lock row; a second run for the same
key fails with the already-run error and changes nothing. -/
theorem C7_payroll_lock_witness :
    (run_payroll admC7 stC7 111 1 2024 6 "").2.payroll_runs
      = stC7.payroll_runs ++ [(1, 2024, 6)] ∧
    run_payroll admC7 stC7' 111 1 2024 6 ""
      = (.error .alreadyRun, stC7') :=
  ⟨(C7_payroll_lock admC7 stC7 111 1 2024 6 ""
      (by decide) (by decide) (by decide)).1 (by decide),
   (C7_payroll_lock admC7 stC7' 111 1 2024 6 ""
      (by decide) (by decide) (by decide)).2.1 (by decide)⟩

/-! ## Claim C8 -/

/-- Bank fixture for C8/C10: business account 1 holding 10, payout accounts
2 and 3. -/
def bankC8 : BankState :=
  ⟨[⟨1, 10, "business", "B", true⟩, ⟨2, 11, "personal", "P2", true⟩,
    ⟨3, 12, "personal", "P3", true⟩],
   [⟨"0", none, some 1, 10, "FORCED", "seed", 0, true⟩], 1⟩

/-- Staff member whose salary (100) exceeds the business balance (10). -/
def staffAnn : Staff := ⟨1, 1, "Ann", none, 2, 100, true⟩

/-- Staff member whose salary (5) the business could afford. -/
def staffBob : Staff := ⟨2, 1, "Bob", none, 3, 5, true⟩

/-- Payroll fixture for C8: both staff members on business 1's roster. -/
def stC8 : PayrollState := ⟨bankC8, [staffAnn, staffBob], []⟩

/-- C8 counterexample: running payroll for the C8 fixture, the first staff
member's transfer fails (balance 10 < salary 100) and the whole call returns
that error with the ledger untouched: the second staff member — whose salary
5 the business could afford — is never attempted, refuting "payroll still
attempts the transfers for every remaining staff member". -/
theorem C8_counterexample_batch_aborts :
    run_payroll admC7 stC8 111 1 2024 6 "pay" =
      (.error (.transferFailed .insufficientFunds),
       ⟨bankC8, [staffAnn, staffBob], [(1, 2024, 6)]⟩) := by
  rfl

/-- C8 amended: the loop aborts at the first failing transfer — if the
prefix `pre` of the roster was paid successfully reaching bank state
`bank1`, and the transfer for `s` fails from `bank1`, the loop returns that
error with bank state `bank1`: the staff after `s` are never attempted and
the earlier transfers stay committed. -/
theorem C8_amended_abort_on_first_failure (a b : Nat) (note : String)
    (pre : List Staff) (s : Staff) (rest : List Staff)
    (bank bank1 : BankState) (res : List (Nat × String)) (e : TransferError)
    (hpre : payStaff a b note pre bank = (.ok res, bank1))
    (hs : transfer bank1 b s.staff_account_id s.monthly_salary
        (note ++ " | " ++ s.staff_name) a false = .error e) :
    payStaff a b note (pre ++ s :: rest) bank = (.error e, bank1) := by
  induction pre generalizing bank res with
  | nil =>
    rw [payStaff, Prod.mk.injEq] at hpre
    obtain ⟨-, h2⟩ := hpre
    subst h2
    rw [List.nil_append, payStaff, hs]
  | cons p pre ih =>
    rw [List.cons_append, payStaff]
    rw [payStaff] at hpre
    cases htr : transfer bank b p.staff_account_id p.monthly_salary
        (note ++ " | " ++ p.staff_name) a false with
    | error e' =>
      rw [htr] at hpre
      simp at hpre
    | ok q =>
      obtain ⟨rn, bank'⟩ := q
      rw [htr] at hpre
      dsimp only at hpre
      dsimp only
      cases hrec : payStaff a b note pre bank' with
      | mk r2 b2 =>
        cases r2 with
        | error e2 =>
          rw [hrec] at hpre
          simp at hpre
        | ok res2 =>
          rw [hrec] at hpre
          simp only [Prod.mk.injEq, Except.ok.injEq] at hpre
          obtain ⟨-, h2⟩ := hpre
          subst h2
          rw [ih bank' res2 hrec]

/-- C8 amended witness: with an empty successful prefix, the failing first
staff member makes the loop return the error at once, the bank untouched and
the second staff member unattempted. -/
theorem C8_amended_abort_on_first_failure_witness :
    payStaff 111 1 "pay" ([] ++ staffAnn :: [staffBob]) bankC8
      = (.error .insufficientFunds, bankC8) :=
  C8_amended_abort_on_first_failure 111 1 "pay" [] staffAnn [staffBob]
    bankC8 bankC8 [] .insufficientFunds (by rfl) (by rfl)

/-! ## Claim C9 -/

/-- C9: on a store with no owner, seeding `u` succeeds and persists `u`:
afterwards `u` is the owner and no other id is, and every later seed call —
for any id — fails with the owner-already-set error while the stored owner
stays `u`. -/
theorem C9_seed_owner_once (s : AdminState) (u : Nat) (h : s.owner = none) :
    ensure_owner_seed s u = .ok { s with owner := some u } ∧
    is_owner { s with owner := some u } u = true ∧
    (∀ v, v ≠ u → is_owner { s with owner := some u } v = false) ∧
    (∀ w, ensure_owner_seed { s with owner := some u } w =
        .error "OWNER already set and locked") ∧
    get_owner_tg_id { s with owner := some u } = some u := by
  refine ⟨?_, ?_, fun v hv => ?_, fun w => rfl, rfl⟩
  · unfold ensure_owner_seed get_owner_tg_id
    rw [h]
  · simp [is_owner, get_owner_tg_id]
  · simp [is_owner, get_owner_tg_id, hv]

/-- C9 witness: seed 111 on an empty store, then check 111/222 and a second
seed attempt with 222. -/
theorem C9_seed_owner_once_witness :
    ensure_owner_seed ⟨none, []⟩ 111 = .ok ⟨some 111, []⟩ ∧
    is_owner ⟨some 111, []⟩ 111 = true ∧
    is_owner ⟨some 111, []⟩ 222 = false ∧
    ensure_owner_seed ⟨some 111, []⟩ 222
      = .error "OWNER already set and locked" := by
  obtain ⟨h1, h2, h3, h4, -⟩ := C9_seed_owner_once ⟨none, []⟩ 111 rfl
  exact ⟨h1, h2, h3 222 (by decide), h4 222⟩

/-! ## Claim C10 -/

/-- Payroll fixture for C10: only Bob (salary 5, affordable) on the roster. -/
def stC10 : PayrollState := ⟨bankC8, [staffBob], []⟩

/-- C10 counterexample: with the non-blank note `" x "`, the description of
the staff transfer is `"x | Bob"` — the note is stripped first — not the
verbatim `" x " ++ " | " ++ "Bob"` = `" x  | Bob"` the claim asserts. -/
theorem C10_counterexample_note_is_stripped :
    run_payroll admC7 stC10 111 1 2024 6 " x " =
      (.ok [(2, "1")],
       ⟨⟨bankC8.accounts,
         bankC8.transactions ++
           [⟨"1", some 1, some 3, 5, "SUCCESS", "x | Bob", 111, false⟩], 2⟩,
        [staffBob], [(1, 2024, 6)]⟩) ∧
    "x | Bob" ≠ " x " ++ " | " ++ "Bob" :=
  ⟨by rfl, by decide⟩

/-- C10 amended: a blank (empty or whitespace-only) note is replaced by the
default `"Salary YYYY-MM"` before descriptions are built, and a non-blank
note is used after stripping — so each staff description is
`effectiveNote ++ " | " ++ name`, never a description with a blank note
prefix. -/
theorem C10_amended_note_defaulting (year month : Nat) (note name : String) :
    (pyStrip note = "" →
      effectiveNote year month note ++ " | " ++ name
        = "Salary " ++ toString year ++ "-" ++ pad2 month ++ " | " ++ name) ∧
    (pyStrip note ≠ "" →
      effectiveNote year month note ++ " | " ++ name
        = pyStrip note ++ " | " ++ name) := by
  constructor <;> intro h <;> simp [effectiveNote, defaultNote, h]

/-- C10 amended witness: a blank note gives the default `Salary 2024-06`
prefix; the note `" x "` gives the stripped prefix `"x"`. -/
theorem C10_amended_note_defaulting_witness :
    effectiveNote 2024 6 "  " ++ " | " ++ "Bob"
      = "Salary " ++ toString 2024 ++ "-" ++ pad2 6 ++ " | " ++ "Bob" ∧
    effectiveNote 2024 6 " x " ++ " | " ++ "Bob"
      = pyStrip " x " ++ " | " ++ "Bob" :=
  ⟨(C10_amended_note_defaulting 2024 6 "  " "Bob").1 (by decide),
   (C10_amended_note_defaulting 2024 6 " x " "Bob").2 (by decide)⟩

end EclisBank
